import Mathlib

/-!
Verification of the remote command-execution protocol of `UI_control`
(`src/sshClient.py`, class `ShellHandler`).

The Python code is embedded shallowly:

* strings are Lean `String`s, manipulated through their `List Char` data;
* the interactive channel's output is a finite list of lines (`List String`),
  which the read loop of `ShellHandler.execute` consumes in order;
* exceptions raised by the Python runtime are modelled by an error type
  `PyErr` enumerating the exceptions the embedded code can actually raise
  (`AttributeError` from accessing the unset `self.stdin`, `ValueError`
  from `int(...)`, `IndexError` from `[1]` on a too-short list);
* the two `self.stdin.write(...)` calls are recorded in a write trace.
-/

set_option autoImplicit false

namespace UIControl

/-! Python string primitives -/

/-- Holds when `p` is a prefix of `s` (char lists); models Python `str.startswith`. -/
def isPrefixOfL : List Char → List Char → Bool
  | [], _ => true
  | _ :: _, [] => false
  | a :: as, b :: bs => a = b && isPrefixOfL as bs

/-- Substring containment of `n` in `h`; models Python `n in h` on strings. -/
def containsSubL (n : List Char) : List Char → Bool
  | [] => isPrefixOfL n []
  | c :: t => isPrefixOfL n (c :: t) || containsSubL n t

/-- Python `s.startswith(p)`. -/
def strStartsWith (s p : String) : Bool := isPrefixOfL p.data s.data

/-- Python `needle in hay` (substring test). -/
def strContains (hay needle : String) : Bool := containsSubL needle.data hay.data

/-- Python whitespace for `str.split`/`str.rsplit` with no separator. -/
def pyWhitespace (c : Char) : Bool :=
  c = ' ' || c = '\t' || c = '\n' || c = '\r' || c = '\x0b' || c = '\x0c'

/-- Python `s.strip('\n')`: remove leading and trailing newline characters. -/
def pyStripNL (s : String) : String :=
  ⟨((s.data.dropWhile (fun c => c = '\n')).reverse.dropWhile (fun c => c = '\n')).reverse⟩

/-- Modelled from the spec wording of step 1 of `execute` ("trim trailing
newlines"): removes only the trailing newline characters, for comparison with
the code's `pyStripNL` which strips both ends. -/
def stripTrailingNLSpec (s : String) : String :=
  ⟨(s.data.reverse.dropWhile (fun c => c = '\n')).reverse⟩

/-- Python `s.rsplit(maxsplit=1)[1]`: the final whitespace-delimited token of
`s`, or `none` when no split happens (then the Python indexing raises
`IndexError`). -/
def pyRsplit1Snd (s : String) : Option String :=
  let body := s.data.reverse.dropWhile pyWhitespace
  let tok := body.takeWhile (fun c => !pyWhitespace c)
  let rest := body.dropWhile (fun c => !pyWhitespace c)
  if rest.isEmpty then none else some ⟨tok.reverse⟩

def isDigitCh (c : Char) : Bool := '0' ≤ c && c ≤ '9'

/-- Continuation of a digit group in a Python `int` literal: digits with
single underscores allowed between digits only. -/
def digitsURest : List Char → Bool
  | [] => true
  | '_' :: rest =>
    match rest with
    | c :: _ => isDigitCh c && digitsURest rest
    | [] => false
  | c :: rest => isDigitCh c && digitsURest rest

/-- Nonempty digit string with optional single underscores between digits. -/
def digitsOk : List Char → Bool
  | [] => false
  | c :: rest => isDigitCh c && digitsURest rest

/-- Numeric value of a digit-and-underscore string. -/
def digitsVal (l : List Char) : Nat :=
  l.foldl (fun acc c => if c = '_' then acc else acc * 10 + (c.toNat - 48)) 0

/-- Python `int(s)` for base 10: optional surrounding whitespace, optional
sign, digits with underscore separators; `none` models `ValueError`. -/
def pyIntStr (s : String) : Option Int :=
  let t := (s.data.dropWhile pyWhitespace).reverse.dropWhile pyWhitespace
  let t := t.reverse
  match t with
  | '+' :: rest => if digitsOk rest then some (Int.ofNat (digitsVal rest)) else none
  | '-' :: rest => if digitsOk rest then some (-(Int.ofNat (digitsVal rest))) else none
  | _ => if digitsOk t then some (Int.ofNat (digitsVal t)) else none

/-! The ANSI-escape scrubbing of `execute`:

The code deletes, in a single left-to-right `re.sub` pass, every
non-overlapping match of the CSI pattern: an introducer (the single byte
0x9B, or 0x1B followed by a left bracket), then any parameter bytes
(0x30 to 0x3F), then any intermediate bytes (0x20 to 0x2F), then one final
byte (0x40 to 0x7E).  The three character classes are pairwise disjoint, so
the greedy match is the deterministic maximal munch. -/

def isParamByte (c : Char) : Bool := 0x30 ≤ c.toNat && c.toNat ≤ 0x3F
def isInterByte (c : Char) : Bool := 0x20 ≤ c.toNat && c.toNat ≤ 0x2F
def isFinalByte (c : Char) : Bool := 0x40 ≤ c.toNat && c.toNat ≤ 0x7E

/-- After the CSI introducer: consume any parameter bytes, then any
intermediate bytes, then one final byte; return the rest of the input on
success. -/
def matchCsiBody (cs : List Char) : Option (List Char) :=
  let cs1 := cs.dropWhile isParamByte
  let cs2 := cs1.dropWhile isInterByte
  match cs2 with
  | c :: rest => if isFinalByte c then some rest else none
  | [] => none

/-- Try to match the full CSI pattern at the head of `cs`; return the
remaining input on success. -/
def matchCsiAt (cs : List Char) : Option (List Char) :=
  match cs with
  | c :: rest =>
    if c = '\x9B' then matchCsiBody rest
    else if c = '\x1B' then
      match rest with
      | '[' :: rest2 => matchCsiBody rest2
      | _ => none
    else none
  | [] => none

/-- Fuelled scan of `re.sub`: on a match, skip it; otherwise keep one char and
continue.  Every step consumes at least one character, so fuel = input length
is always sufficient. -/
def ansiSubF : Nat → List Char → List Char
  | _, [] => []
  | 0, l => l
  | fuel + 1, c :: rest =>
    match matchCsiAt (c :: rest) with
    | some rest2 => ansiSubF fuel rest2
    | none => c :: ansiSubF fuel rest

/-- The regex substitution of `execute` (CSI matches deleted, single pass). -/
def ansiSub (l : List Char) : List Char := ansiSubF l.length l

/-- Whether the scan would still find a CSI match somewhere in `l`. -/
def containsCsiL : List Char → Bool
  | [] => false
  | c :: rest => (matchCsiAt (c :: rest)).isSome || containsCsiL rest

/-- The string contains a substring matched by the code's CSI pattern. -/
def containsCsi (s : String) : Bool := containsCsiL s.data

/-- Python `s.replace(c, '')` for a single-character needle. -/
def pyReplaceDel (c : Char) (l : List Char) : List Char := l.filter (fun x => x != c)

/-- The per-line cleaning of `execute`: strip CSI escapes, then delete every
`\b`, then every `\r`. -/
def sanitizeLine (s : String) : String :=
  ⟨pyReplaceDel '\r' (pyReplaceDel '\x08' (ansiSub s.data))⟩

end UIControl

namespace ShellHandler

open UIControl

/-- The constant `finish` of `execute`: the fixed sentinel phrase. -/
def finishStr : String := "end of stdOUT buffer. finished with exit status"

/-- The constant `echo_cmd` of `execute`: the word echo, the sentinel phrase and
the shell's last-exit-status variable, space-separated. -/
def echoCmdStr : String := "echo " ++ finishStr ++ " $?"

/-- Python exceptions the embedded code can raise. The code defines no
exception classes of its own (in particular no `NotConnectedError`,
`TransportError` or `MalformedResponseError`). -/
inductive PyErr where
  | attributeError
  | valueError
  | indexError
deriving DecidableEq, Repr

/-- How the read loop of `execute` ended: by exhausting the output stream, or
by `break`ing on a line that starts with the sentinel phrase. -/
inductive Term where
  | eof
  | sentinel
deriving DecidableEq, Repr

/-- State of the loop at its end: the two buffers (`shout`, `sherr`), the
`exit_status` value, how the loop ended, and the number of lines consumed. -/
structure LoopOut where
  shout : List String
  sherr : List String
  status : Int
  term : Term
  consumed : Nat
deriving DecidableEq, Repr

/-- The `for line in self.stdout:` loop of `execute`, for the (already
stripped) command `cmd`.  `shout` is the accumulated buffer, `n` counts lines
consumed so far.  `sherr` starts `[]` and `exit_status` starts `0`; both are
only reassigned inside the sentinel branch. -/
def runLoop (cmd : String) : List String → List String → Nat → Except PyErr LoopOut
  | [], shout, n => .ok ⟨shout, [], 0, .eof, n⟩
  | line :: rest, shout, n =>
    if strStartsWith line cmd || strStartsWith line echoCmdStr then
      runLoop cmd rest [] (n + 1)
    else if strStartsWith line finishStr then
      match pyRsplit1Snd line with
      | none => .error .indexError
      | some tok =>
        match pyIntStr tok with
        | none => .error .valueError
        | some st =>
          if st ≠ 0 then .ok ⟨[], shout, st, .sentinel, n + 1⟩
          else .ok ⟨shout, [], st, .sentinel, n + 1⟩
    else
      runLoop cmd rest (shout ++ [sanitizeLine line]) (n + 1)

/-- The buffer the loop has accumulated when it stops (before the
classification swap of the sentinel branch). -/
def accumulate (cmd : String) : List String → List String → List String
  | [], shout => shout
  | line :: rest, shout =>
    if strStartsWith line cmd || strStartsWith line echoCmdStr then
      accumulate cmd rest []
    else if strStartsWith line finishStr then shout
    else accumulate cmd rest (shout ++ [sanitizeLine line])

/-- Removal of the last buffer element when it contains the sentinel-echo
command text (the first trimming statement pair of `execute`). -/
def popLastIfEcho (l : List String) : List String :=
  match l.getLast? with
  | some last => if strContains last echoCmdStr then l.dropLast else l
  | none => l

/-- Removal of the leading buffer element when it contains the command text
(the second trimming statement pair of `execute`). -/
def popHeadIfCmd (cmd : String) : List String → List String
  | [] => []
  | h :: t => if strContains h cmd then t else h :: t

/-- The artifact-trimming applied to each buffer after the loop. -/
def trimArtifacts (cmd : String) (l : List String) : List String :=
  popHeadIfCmd cmd (popLastIfEcho l)

/-- The `self.stdin` file object: `shin = self.stdin` is returned as the
first component of `execute`'s result. -/
inductive StdinFile where
  | handle
deriving DecidableEq, Repr

/-- The value `return shin, shout, sherr` produces: a triple whose first
component is the stdin file object, not a pair of line sequences. -/
structure ExecOk where
  shin : StdinFile
  shout : List String
  sherr : List String
deriving DecidableEq, Repr

/-- One `ShellHandler` object, as `__init__` can leave it: the `isConnected`
flag, and whether the `self.stdin` / `self.stdout` attributes were set (they
are set only after `invoke_shell()` succeeds). -/
structure Session where
  isConnected : Bool
  hasStreams : Bool
deriving DecidableEq, Repr

/-- Trace of one `execute(cmd)` call: what was written to the channel's input
sink, and either the returned triple or the exception raised. -/
structure ExecTrace where
  writes : List String
  outcome : Except PyErr ExecOk
deriving Repr

/-- The method `execute(cmd)` of `ShellHandler`, on a session `sess`, with `stream` the lines
the channel's output file yields.  If the `stdin` attribute is missing
(disconnected construction path), the very first `self.stdin.write` raises
`AttributeError` before any channel I/O. -/
def execute (sess : Session) (cmd : String) (stream : List String) : ExecTrace :=
  if sess.hasStreams then
    match runLoop (pyStripNL cmd) stream [] 0 with
    | .error e =>
      { writes := [pyStripNL cmd ++ "\n", echoCmdStr ++ "\n"], outcome := .error e }
    | .ok lo =>
      { writes := [pyStripNL cmd ++ "\n", echoCmdStr ++ "\n"]
        outcome := .ok ⟨.handle, trimArtifacts (pyStripNL cmd) lo.shout,
                        trimArtifacts (pyStripNL cmd) lo.sherr⟩ }
  else { writes := [], outcome := .error .attributeError }

/-- Environment of one `__init__` run: whether `ssh.connect` succeeds, whether
the fallback `auth_none` path succeeds, and whether `invoke_shell` (with the
two `makefile` calls) succeeds. -/
structure InitEnv where
  connectOk : Bool
  authNoneOk : Bool
  invokeShellOk : Bool
deriving DecidableEq, Repr

/-- Result of `__init__`: the attribute state of the object, and whether the
constructor raised (it does exactly when `invoke_shell` fails after a
successful authentication; both authentications failing returns normally). -/
structure InitOut where
  sess : Session
  raised : Bool
deriving DecidableEq, Repr

/-- The constructor of `ShellHandler`: sets `isConnected := True` as soon as either
authentication attempt succeeds, then invokes the shell; if both attempts
fail it returns early with `isConnected := False` and no stream attributes. -/
def init (env : InitEnv) : InitOut :=
  if env.connectOk || env.authNoneOk then
    if env.invokeShellOk then ⟨⟨true, true⟩, false⟩
    else ⟨⟨true, false⟩, true⟩
  else ⟨⟨false, false⟩, false⟩

end ShellHandler

/-! General lemmas about the embedded code -/

namespace ShellHandler

open UIControl

/-- On a connected session, `execute` runs the loop and, when the loop
returns, wraps the trimmed buffers behind the stdin handle. -/
theorem execute_ok (cmd : String) (stream : List String) (lo : LoopOut)
    (h : runLoop (pyStripNL cmd) stream [] 0 = Except.ok lo) :
    execute ⟨true, true⟩ cmd stream =
      ⟨[pyStripNL cmd ++ "\n", echoCmdStr ++ "\n"],
       Except.ok ⟨StdinFile.handle, trimArtifacts (pyStripNL cmd) lo.shout,
                  trimArtifacts (pyStripNL cmd) lo.sherr⟩⟩ := by
  unfold execute
  rw [if_pos rfl, h]

/-- On a connected session, an exception in the loop propagates out of
`execute` after the two writes. -/
theorem execute_err (cmd : String) (stream : List String) (e : PyErr)
    (h : runLoop (pyStripNL cmd) stream [] 0 = Except.error e) :
    execute ⟨true, true⟩ cmd stream =
      ⟨[pyStripNL cmd ++ "\n", echoCmdStr ++ "\n"], Except.error e⟩ := by
  unfold execute
  rw [if_pos rfl, h]

/-- When the read loop breaks on a sentinel line, its buffers are the
all-or-nothing classification of the accumulated buffer by the parsed exit
status. -/
theorem runLoop_sentinel_spec (cmd : String) :
    ∀ (stream acc : List String) (n : Nat) (lo : LoopOut),
      runLoop cmd stream acc n = Except.ok lo → lo.term = Term.sentinel →
      (lo.status = 0 → lo.shout = accumulate cmd stream acc ∧ lo.sherr = []) ∧
      (lo.status ≠ 0 → lo.sherr = accumulate cmd stream acc ∧ lo.shout = []) := by
  intro stream
  induction stream with
  | nil =>
    intro acc n lo h ht
    simp only [runLoop] at h
    injection h with h
    subst h
    simp at ht
  | cons line rest ih =>
    intro acc n lo h ht
    simp only [runLoop] at h
    split at h
    · next h1 =>
      have := ih [] (n + 1) lo h ht
      simpa only [accumulate, if_pos h1] using this
    · next h1 =>
      split at h
      · next h2 =>
        split at h
        · exact absurd h (by simp)
        · next tok htok =>
          split at h
          · exact absurd h (by simp)
          · next st hst =>
            split at h
            · next hne =>
              injection h with h
              subst h
              refine ⟨fun h0 => absurd h0 hne, fun _ => ⟨?_, rfl⟩⟩
              simp only [accumulate, if_neg h1, if_pos h2]
            · next hne =>
              injection h with h
              subst h
              refine ⟨fun _ => ⟨?_, rfl⟩, fun h0 => absurd h0 hne⟩
              simp only [accumulate, if_neg h1, if_pos h2]
      · next h2 =>
        have := ih (acc ++ [sanitizeLine line]) (n + 1) lo h ht
        simpa only [accumulate, if_neg h1, if_neg h2] using this

/-- When the read loop exhausts the stream without meeting a sentinel line,
`exit_status` is still `0`, `sherr` is still empty, the whole stream was
consumed, and `shout` is just the accumulated buffer. -/
theorem runLoop_eof_spec (cmd : String) :
    ∀ (stream acc : List String) (n : Nat) (lo : LoopOut),
      runLoop cmd stream acc n = Except.ok lo → lo.term = Term.eof →
      lo = ⟨accumulate cmd stream acc, [], 0, Term.eof, n + stream.length⟩ := by
  intro stream
  induction stream with
  | nil =>
    intro acc n lo h _
    simp only [runLoop] at h
    injection h with h
    subst h
    simp [accumulate]
  | cons line rest ih =>
    intro acc n lo h ht
    simp only [runLoop] at h
    split at h
    · next h1 =>
      have := ih [] (n + 1) lo h ht
      rw [this]
      simp only [accumulate, if_pos h1, List.length_cons]
      refine congrArg _ ?_
      omega
    · next h1 =>
      split at h
      · next h2 =>
        split at h
        · exact absurd h (by simp)
        · split at h
          · exact absurd h (by simp)
          · split at h
            · injection h with h; subst h; simp at ht
            · injection h with h; subst h; simp at ht
      · next h2 =>
        have := ih (acc ++ [sanitizeLine line]) (n + 1) lo h ht
        rw [this]
        simp only [accumulate, if_neg h1, if_neg h2, List.length_cons]
        refine congrArg _ ?_
        omega

/-- Every line in either buffer at loop end was either already in the initial
accumulator or is the sanitized form of some stream line. -/
theorem runLoop_mem_source (cmd : String) :
    ∀ (stream acc : List String) (n : Nat) (lo : LoopOut),
      runLoop cmd stream acc n = Except.ok lo →
      ∀ s : String, s ∈ lo.shout ++ lo.sherr →
        s ∈ acc ∨ ∃ line, s = sanitizeLine line := by
  intro stream
  induction stream with
  | nil =>
    intro acc n lo h s hs
    simp only [runLoop] at h
    injection h with h
    subst h
    simp only [List.append_nil] at hs
    exact Or.inl hs
  | cons line rest ih =>
    intro acc n lo h s hs
    simp only [runLoop] at h
    split at h
    · rcases ih [] (n + 1) lo h s hs with h' | h'
      · simp at h'
      · exact Or.inr h'
    · split at h
      · split at h
        · exact absurd h (by simp)
        · split at h
          · exact absurd h (by simp)
          · split at h
            · injection h with h
              subst h
              simp only [List.nil_append] at hs
              exact Or.inl hs
            · injection h with h
              subst h
              simp only [List.append_nil] at hs
              exact Or.inl hs
      · rcases ih (acc ++ [sanitizeLine line]) (n + 1) lo h s hs with h' | h'
        · rcases List.mem_append.mp h' with h'' | h''
          · exact Or.inl h''
          · exact Or.inr ⟨line, by simpa using h''⟩
        · exact Or.inr h'

/-- The sanitized line contains no backspace and no carriage return. -/
theorem sanitizeLine_no_ctrl (s : String) :
    '\x08' ∉ (sanitizeLine s).data ∧ '\r' ∉ (sanitizeLine s).data := by
  constructor
  · intro hmem
    have h1 : '\x08' ∈ pyReplaceDel '\x08' (ansiSub s.data) :=
      (List.mem_filter.mp hmem).1
    have h2 := (List.mem_filter.mp h1).2
    simp at h2
  · intro hmem
    have h2 := (List.mem_filter.mp hmem).2
    simp at h2

/-- Membership in `popLastIfEcho l` implies membership in `l`. -/
theorem mem_of_mem_popLastIfEcho {l : List String} {s : String}
    (h : s ∈ popLastIfEcho l) : s ∈ l := by
  unfold popLastIfEcho at h
  split at h
  · split at h
    · exact List.mem_of_mem_dropLast h
    · exact h
  · exact h

/-- Membership in `popHeadIfCmd cmd l` implies membership in `l`. -/
theorem mem_of_mem_popHeadIfCmd {cmd : String} {l : List String} {s : String}
    (h : s ∈ popHeadIfCmd cmd l) : s ∈ l := by
  unfold popHeadIfCmd at h
  split at h
  · exact h
  · split at h
    · exact List.mem_cons_of_mem _ h
    · exact h

/-- Membership in the trimmed buffer implies membership in the buffer. -/
theorem mem_of_mem_trimArtifacts {cmd : String} {l : List String} {s : String}
    (h : s ∈ trimArtifacts cmd l) : s ∈ l :=
  mem_of_mem_popLastIfEcho (mem_of_mem_popHeadIfCmd h)

/-- The tail of `dropLast` is contained in the tail. -/
theorem mem_tail_of_mem_tail_dropLast {α : Type} {s : α} {l : List α}
    (h : s ∈ l.dropLast.tail) : s ∈ l.tail := by
  cases l with
  | nil => simp at h
  | cons a t =>
    cases t with
    | nil => simp at h
    | cons b t2 =>
      rw [List.dropLast_cons₂, List.tail_cons] at h
      exact List.mem_of_mem_dropLast h

/-- If only the last element of `l` can contain the sentinel-echo text, then
after `popLastIfEcho` no element contains it. -/
theorem popLastIfEcho_clean {l : List String}
    (h1 : ∀ s ∈ l.dropLast, strContains s echoCmdStr = false) :
    ∀ s ∈ popLastIfEcho l, strContains s echoCmdStr = false := by
  intro s hs
  unfold popLastIfEcho at hs
  split at hs
  · next last hlast =>
    split at hs
    · exact h1 s hs
    · next hcon =>
      have hl : l.dropLast ++ [last] = l := List.dropLast_append_getLast? last hlast
      rcases List.mem_append.mp (hl ▸ hs) with h' | h'
      · exact h1 s h'
      · have : s = last := by simpa using h'
        subst this
        simpa using hcon
  · next heq =>
    rw [List.getLast?_eq_none_iff.mp heq] at hs
    simp at hs

/-- If in addition only the head of `l` can contain the command text, the
fully trimmed buffer has no element containing the sentinel-echo text and its
leading element (if any) does not contain the command text. -/
theorem trimArtifacts_clean (cmd : String) (l : List String)
    (h1 : ∀ s ∈ l.dropLast, strContains s echoCmdStr = false)
    (h2 : ∀ s ∈ l.tail, strContains s cmd = false) :
    (∀ s ∈ trimArtifacts cmd l, strContains s echoCmdStr = false) ∧
    (∀ s ∈ (trimArtifacts cmd l).take 1, strContains s cmd = false) := by
  have hech : ∀ s ∈ popLastIfEcho l, strContains s echoCmdStr = false :=
    popLastIfEcho_clean h1
  have htail : ∀ s ∈ (popLastIfEcho l).tail, strContains s cmd = false := by
    intro s hs
    unfold popLastIfEcho at hs
    split at hs
    · split at hs
      · exact h2 s (mem_tail_of_mem_tail_dropLast hs)
      · exact h2 s hs
    · exact h2 s hs
  constructor
  · intro s hs
    exact hech s (mem_of_mem_popHeadIfCmd hs)
  · intro s hs
    unfold trimArtifacts popHeadIfCmd at hs
    split at hs
    · simp at hs
    · next h t heq =>
      split at hs
      · have hst : s ∈ t := List.mem_of_mem_take hs
        exact htail s (by rw [heq]; exact hst)
      · next hcon =>
        have hsh : s = h := by simpa using hs
        subst hsh
        simpa using hcon

end ShellHandler

/-! The claims -/

namespace ShellHandler

open UIControl

/-- C1, counterexample: with `cmd = "a"` and real output line `"cat\n"`
followed by a status-0 sentinel line, the loop accumulates `["cat\n"]`, yet
`execute` returns empty stdout: the final artifact trimming pops the leading
element because it contains the command text as a substring, so not every
accumulated line is returned. -/
theorem C1_counterexample :
    runLoop "a" ["cat\n", "end of stdOUT buffer. finished with exit status 0\n"] [] 0 =
      Except.ok ⟨["cat\n"], [], 0, Term.sentinel, 2⟩ ∧
    (execute ⟨true, true⟩ "a"
        ["cat\n", "end of stdOUT buffer. finished with exit status 0\n"]).outcome =
      Except.ok ⟨StdinFile.handle, [], []⟩ :=
  ⟨rfl, rfl⟩

/-- C1, amended: when the read loop terminates via the sentinel branch with
parsed status `lo.status`, classification is all-or-nothing gated solely by
that status — status 0 puts the accumulated buffer (after artifact trimming)
in stdout with empty stderr, nonzero status puts it (after trimming) in
stderr with empty stdout. -/
theorem C1_classification (cmd : String) (stream : List String) (lo : LoopOut)
    (h : runLoop (pyStripNL cmd) stream [] 0 = Except.ok lo)
    (ht : lo.term = Term.sentinel) :
    (execute ⟨true, true⟩ cmd stream).outcome =
      Except.ok ⟨StdinFile.handle,
        if lo.status = 0 then
          trimArtifacts (pyStripNL cmd) (accumulate (pyStripNL cmd) stream []) else [],
        if lo.status = 0 then [] else
          trimArtifacts (pyStripNL cmd) (accumulate (pyStripNL cmd) stream [])⟩ := by
  have hspec := runLoop_sentinel_spec (pyStripNL cmd) stream [] 0 lo h ht
  rw [execute_ok cmd stream lo h]
  by_cases h0 : lo.status = 0
  · obtain ⟨hsh, hse⟩ := hspec.1 h0
    rw [if_pos h0, if_pos h0]
    rw [hsh, hse]
    rfl
  · obtain ⟨hse, hsh⟩ := hspec.2 h0
    rw [if_neg h0, if_neg h0]
    rw [hsh, hse]
    rfl

/-- C1, witness: a concrete sentinel-terminated run through
`C1_classification`. -/
theorem C1_classification_witness :
    (execute ⟨true, true⟩ "zzz"
        ["hi\n", "end of stdOUT buffer. finished with exit status 0\n"]).outcome =
      Except.ok ⟨StdinFile.handle, ["hi\n"], []⟩ := by
  have h := C1_classification "zzz"
      ["hi\n", "end of stdOUT buffer. finished with exit status 0\n"]
      ⟨["hi\n"], [], 0, Term.sentinel, 2⟩ rfl rfl
  rw [h]
  rfl

/-- C2, counterexample: the claim says the first write is `cmd` with only its
trailing newlines trimmed; Python `strip('\n')` also strips leading newlines,
so for `cmd = "\na"` the code writes `"a\n"`, not `"\na\n"`. -/
theorem C2_counterexample :
    (execute ⟨true, true⟩ "\na" []).writes =
      ["a\n", "echo end of stdOUT buffer. finished with exit status $?\n"] ∧
    (execute ⟨true, true⟩ "\na" []).writes ≠
      [stripTrailingNLSpec "\na" ++ "\n",
       "echo end of stdOUT buffer. finished with exit status $?\n"] := by
  exact ⟨rfl, by decide⟩

/-- C2, amended: for every command string, `execute` writes exactly two lines
to the channel input before the read loop: `cmd` with leading AND trailing
newlines stripped plus a newline, then the bit-exact sentinel command plus a
newline, in that order. -/
theorem C2_writes (cmd : String) (stream : List String) :
    (execute ⟨true, true⟩ cmd stream).writes =
      [pyStripNL cmd ++ "\n",
       "echo end of stdOUT buffer. finished with exit status $?\n"] := by
  unfold execute
  rw [if_pos rfl]
  cases h : runLoop (pyStripNL cmd) stream [] 0 with
  | error e => rfl
  | ok lo => rfl

/-- C3, counterexample: a sentinel-prefixed line whose trailing token is not
a parseable integer makes `execute` raise the built-in `ValueError` coming
straight out of `int(...)`; the code defines no `MalformedResponseError`. -/
theorem C3_counterexample :
    (execute ⟨true, true⟩ "zzz"
        ["end of stdOUT buffer. finished with exit status abc\n"]).outcome =
      Except.error PyErr.valueError :=
  rfl

/-- C3, amended: whenever the read loop meets a line that begins with the
sentinel phrase (and is not swallowed by the echo-discard branch) and whose
final whitespace-delimited token is not a parseable integer, the invocation
is abandoned with Python's built-in `ValueError` — not with a dedicated
`MalformedResponseError`, which the code never defines. -/
theorem C3_unparsable_status (cmd line tok : String) (rest acc : List String) (n : Nat)
    (h1 : strStartsWith line (pyStripNL cmd) = false)
    (h2 : strStartsWith line echoCmdStr = false)
    (h3 : strStartsWith line finishStr = true)
    (h4 : pyRsplit1Snd line = some tok)
    (h5 : pyIntStr tok = none) :
    runLoop (pyStripNL cmd) (line :: rest) acc n = Except.error PyErr.valueError ∧
    (execute ⟨true, true⟩ cmd (line :: rest)).outcome = Except.error PyErr.valueError := by
  have hloop : ∀ (acc' : List String) (n' : Nat),
      runLoop (pyStripNL cmd) (line :: rest) acc' n' = Except.error PyErr.valueError := by
    intro acc' n'
    simp [runLoop, h1, h2, h3, h4, h5]
  refine ⟨hloop acc n, ?_⟩
  rw [execute_err cmd (line :: rest) PyErr.valueError (hloop [] 0)]

/-- C3, witness: a concrete malformed sentinel line through
`C3_unparsable_status`. -/
theorem C3_witness :
    runLoop (pyStripNL "zzz")
        ["end of stdOUT buffer. finished with exit status xyz\n"] [] 0 =
      Except.error PyErr.valueError ∧
    (execute ⟨true, true⟩ "zzz"
        ["end of stdOUT buffer. finished with exit status xyz\n"]).outcome =
      Except.error PyErr.valueError :=
  C3_unparsable_status "zzz" "end of stdOUT buffer. finished with exit status xyz\n"
    "xyz" [] [] 0 (by decide) (by decide) (by decide) (by decide) (by decide)

/-- C4, counterexample: on a session whose construction failed, `execute`
raises `AttributeError` (the `stdin` attribute was never set), not a
`NotConnectedError` — the code defines no such error and performs no
connectivity check. -/
theorem C4_counterexample :
    execute ⟨false, false⟩ "ls" ["x\n"] =
      ⟨[], Except.error PyErr.attributeError⟩ :=
  rfl

/-- C4, amended: on every construction outcome that is not connected,
`execute` fails immediately with the built-in `AttributeError`, with no write
to and no read from the channel (the writes trace is empty and no stream line
is consumed), hence it fails fast rather than blocking. -/
theorem C4_disconnected (env : InitEnv) (h : (init env).sess.isConnected = false)
    (cmd : String) (stream : List String) :
    execute (init env).sess cmd stream = ⟨[], Except.error PyErr.attributeError⟩ := by
  have hs : (init env).sess.hasStreams = false := by
    rcases env with ⟨a, b, c⟩
    cases a <;> cases b <;> cases c <;> simp_all [init]
  simp [execute, hs]

/-- C4, witness: a concrete failed construction through `C4_disconnected`. -/
theorem C4_witness :
    execute (init ⟨false, false, true⟩).sess "echo hi" ["y\n"] =
      ⟨[], Except.error PyErr.attributeError⟩ :=
  C4_disconnected ⟨false, false, true⟩ rfl "echo hi" ["y\n"]

/-- C5, counterexample: a real output line that merely contains (does not
start with) the sentinel-echo command text survives the loop filter and, not
being the last buffer element, also survives the trimming — so a returned
sequence can contain the literal sentinel-echo command text. -/
theorem C5_counterexample :
    (execute ⟨true, true⟩ "zzz"
        ["a echo end of stdOUT buffer. finished with exit status $? b\n", "tail\n",
         "end of stdOUT buffer. finished with exit status 0\n"]).outcome =
      Except.ok ⟨StdinFile.handle,
        ["a echo end of stdOUT buffer. finished with exit status $? b\n", "tail\n"], []⟩ ∧
    strContains "a echo end of stdOUT buffer. finished with exit status $? b\n"
      echoCmdStr = true :=
  ⟨rfl, by decide⟩

/-- C5, amended: the trimming removes at most one trailing element containing
the sentinel-echo text and at most one leading element containing the command
text; hence when the sentinel-echo text occurs in no accumulated element other
than possibly the last, and the command text in none other than possibly the
first, the returned sequences contain no element with the sentinel-echo text
and no leading element with the command text. -/
theorem C5_trimmed_buffers (cmd : String) (stream : List String) (lo : LoopOut)
    (h : runLoop (pyStripNL cmd) stream [] 0 = Except.ok lo)
    (h1 : ∀ s ∈ lo.shout.dropLast, strContains s echoCmdStr = false)
    (h2 : ∀ s ∈ lo.shout.tail, strContains s (pyStripNL cmd) = false)
    (h3 : ∀ s ∈ lo.sherr.dropLast, strContains s echoCmdStr = false)
    (h4 : ∀ s ∈ lo.sherr.tail, strContains s (pyStripNL cmd) = false) :
    (execute ⟨true, true⟩ cmd stream).outcome =
      Except.ok ⟨StdinFile.handle, trimArtifacts (pyStripNL cmd) lo.shout,
                 trimArtifacts (pyStripNL cmd) lo.sherr⟩ ∧
    (∀ s ∈ trimArtifacts (pyStripNL cmd) lo.shout, strContains s echoCmdStr = false) ∧
    (∀ s ∈ (trimArtifacts (pyStripNL cmd) lo.shout).take 1,
        strContains s (pyStripNL cmd) = false) ∧
    (∀ s ∈ trimArtifacts (pyStripNL cmd) lo.sherr, strContains s echoCmdStr = false) ∧
    (∀ s ∈ (trimArtifacts (pyStripNL cmd) lo.sherr).take 1,
        strContains s (pyStripNL cmd) = false) := by
  obtain ⟨hoa, hob⟩ := trimArtifacts_clean (pyStripNL cmd) lo.shout h1 h2
  obtain ⟨hea, heb⟩ := trimArtifacts_clean (pyStripNL cmd) lo.sherr h3 h4
  refine ⟨?_, hoa, hob, hea, heb⟩
  rw [execute_ok cmd stream lo h]

/-- C5, witness: a concrete nonzero-status run through `C5_trimmed_buffers`;
the single error line contains neither artifact, so both returned sequences
are clean. -/
theorem C5_witness :
    (execute ⟨true, true⟩ "zzz"
        ["ok\n", "end of stdOUT buffer. finished with exit status 1\n"]).outcome =
      Except.ok ⟨StdinFile.handle, [], ["ok\n"]⟩ := by
  have h := C5_trimmed_buffers "zzz"
      ["ok\n", "end of stdOUT buffer. finished with exit status 1\n"]
      ⟨[], ["ok\n"], 1, Term.sentinel, 2⟩ rfl (by simp) (by simp) (by simp) (by simp)
  exact h.1

/-- C6, counterexample: the single-pass regex deletion is not idempotent: on
the line `ESC ESC [ 0 m [ 0 m` it removes the inner CSI sequence and thereby
juxtaposes a new one, so a returned line still contains a full ANSI CSI
escape sequence. -/
theorem C6_counterexample :
    (execute ⟨true, true⟩ "zzz"
        ["\x1B\x1B[0m[0m\n", "end of stdOUT buffer. finished with exit status 0\n"]).outcome =
      Except.ok ⟨StdinFile.handle, ["\x1B[0m\n"], []⟩ ∧
    containsCsi "\x1B[0m\n" = true :=
  ⟨rfl, by decide⟩

/-- C6, amended: every line returned by a completed `execute` call contains
no backspace and no carriage-return character (those are deleted entirely);
ANSI escapes are only removed by one pass of the CSI pattern, which does not
guarantee their absence. -/
theorem C6_no_bs_cr (cmd : String) (stream : List String) (out : ExecOk)
    (h : (execute ⟨true, true⟩ cmd stream).outcome = Except.ok out) :
    (∀ s ∈ out.shout, '\x08' ∉ s.data ∧ '\r' ∉ s.data) ∧
    (∀ s ∈ out.sherr, '\x08' ∉ s.data ∧ '\r' ∉ s.data) := by
  cases hr : runLoop (pyStripNL cmd) stream [] 0 with
  | error e =>
    rw [execute_err cmd stream e hr] at h
    exact absurd h (by simp)
  | ok lo =>
    have h2 := congrArg ExecTrace.outcome (execute_ok cmd stream lo hr)
    rw [h2] at h
    have h3 : (⟨StdinFile.handle, trimArtifacts (pyStripNL cmd) lo.shout,
        trimArtifacts (pyStripNL cmd) lo.sherr⟩ : ExecOk) = out := by
      exact Except.ok.inj h
    subst h3
    have hmem := runLoop_mem_source (pyStripNL cmd) stream [] 0 lo hr
    constructor
    · intro s hs
      have hsrc : s ∈ lo.shout ++ lo.sherr :=
        List.mem_append.mpr (Or.inl (mem_of_mem_trimArtifacts hs))
      rcases hmem s hsrc with h' | ⟨line, rfl⟩
      · simp at h'
      · exact sanitizeLine_no_ctrl line
    · intro s hs
      have hsrc : s ∈ lo.shout ++ lo.sherr :=
        List.mem_append.mpr (Or.inr (mem_of_mem_trimArtifacts hs))
      rcases hmem s hsrc with h' | ⟨line, rfl⟩
      · simp at h'
      · exact sanitizeLine_no_ctrl line

/-- C6, witness: a stream line carrying backspace and carriage return comes
back with both stripped, through `C6_no_bs_cr`. -/
theorem C6_witness :
    (∀ s ∈ (⟨StdinFile.handle, ["ab\n"], []⟩ : ExecOk).shout,
        '\x08' ∉ s.data ∧ '\r' ∉ s.data) ∧
    (∀ s ∈ (⟨StdinFile.handle, ["ab\n"], []⟩ : ExecOk).sherr,
        '\x08' ∉ s.data ∧ '\r' ∉ s.data) :=
  C6_no_bs_cr "zzz" ["a\x08\rb\n", "end of stdOUT buffer. finished with exit status 0\n"]
    ⟨StdinFile.handle, ["ab\n"], []⟩ rfl

/-- C7, counterexample: when the stream ends (channel closed) before any
sentinel line, `execute` does not raise anything: it returns normally with
the partial output classified as stdout — nothing is discarded and no
`TransportError` exists in the code. -/
theorem C7_counterexample :
    execute ⟨true, true⟩ "zzz" ["hello\n"] =
      ⟨["zzz\n", "echo end of stdOUT buffer. finished with exit status $?\n"],
       Except.ok ⟨StdinFile.handle, ["hello\n"], []⟩⟩ :=
  rfl

/-- C7, amended: if the output stream is exhausted before a line matching the
sentinel phrase, the loop falls through with `exit_status` still 0 and
`execute` returns normally, handing the partial accumulated output (after
trimming) back as stdout with an empty stderr; no exception is raised and the
session state is untouched. -/
theorem C7_eof_returns_output (cmd : String) (stream : List String) (lo : LoopOut)
    (h : runLoop (pyStripNL cmd) stream [] 0 = Except.ok lo)
    (ht : lo.term = Term.eof) :
    (execute ⟨true, true⟩ cmd stream).outcome =
      Except.ok ⟨StdinFile.handle,
        trimArtifacts (pyStripNL cmd) (accumulate (pyStripNL cmd) stream []), []⟩ := by
  have hspec := runLoop_eof_spec (pyStripNL cmd) stream [] 0 lo h ht
  rw [execute_ok cmd stream lo h, hspec]
  rfl

/-- C7, witness: a concrete sentinel-less stream through
`C7_eof_returns_output`. -/
theorem C7_witness :
    (execute ⟨true, true⟩ "zzz" ["partial\n"]).outcome =
      Except.ok ⟨StdinFile.handle,
        trimArtifacts (pyStripNL "zzz") (accumulate (pyStripNL "zzz") ["partial\n"] []), []⟩ :=
  C7_eof_returns_output "zzz" ["partial\n"] ⟨["partial\n"], [], 0, Term.eof, 1⟩ rfl rfl

/-- C8, counterexample: with `ssh.connect` succeeding and `invoke_shell`
failing, `__init__` has already set `isConnected := True` before attempting
the shell, so the object's state reports connected even though no shell was
ever invoked (the constructor then raises). -/
theorem C8_counterexample :
    init ⟨true, true, false⟩ = ⟨⟨true, false⟩, true⟩ :=
  rfl

/-- C8, amended: `isConnected` is true exactly when one of the two
authentication attempts succeeded — independently of whether the shell
invocation succeeded; the constructor raises precisely when authentication
succeeded and shell invocation failed. -/
theorem C8_connected_iff_auth (env : InitEnv) :
    (init env).sess.isConnected = (env.connectOk || env.authNoneOk) ∧
    (init env).raised = ((env.connectOk || env.authNoneOk) && !env.invokeShellOk) := by
  rcases env with ⟨a, b, c⟩
  cases a <;> cases b <;> cases c <;> exact ⟨rfl, rfl⟩

/-- C9, counterexample: a successful `execute` does not return a pair of two
line sequences: it returns the triple `(shin, shout, sherr)` whose first
component is the channel's stdin file object (the code's docstring documents
exactly this). -/
theorem C9_counterexample :
    execute ⟨true, true⟩ "true" ["end of stdOUT buffer. finished with exit status 0\n"] =
      ⟨["true\n", "echo end of stdOUT buffer. finished with exit status $?\n"],
       Except.ok ⟨StdinFile.handle, [], []⟩⟩ :=
  rfl

/-- C9, amended: every successful `execute` returns a triple whose first
component is the stdin file handle, followed by the stdout line sequence and
the stderr line sequence. -/
theorem C9_returns_triple (cmd : String) (stream : List String) (out : ExecOk)
    (h : (execute ⟨true, true⟩ cmd stream).outcome = Except.ok out) :
    out.shin = StdinFile.handle ∧ out = ⟨StdinFile.handle, out.shout, out.sherr⟩ := by
  cases out with
  | mk shin shout sherr =>
    cases shin
    exact ⟨rfl, rfl⟩

/-- C9, witness: a concrete successful run through `C9_returns_triple`. -/
theorem C9_witness :
    (⟨StdinFile.handle, ["x\n"], []⟩ : ExecOk).shin = StdinFile.handle ∧
    (⟨StdinFile.handle, ["x\n"], []⟩ : ExecOk) =
      ⟨StdinFile.handle, ["x\n"], []⟩ :=
  C9_returns_triple "zzz" ["x\n"] ⟨StdinFile.handle, ["x\n"], []⟩ rfl

/-- C10: when the command strips to the empty string, every stream line
starts with it, so the echo-discard branch fires on every line (including
any sentinel line): the sentinel branch is unreachable, the loop ends only by
exhausting the whole stream with `exit_status` still defaulted to 0, and
`execute` returns empty stdout and stderr. -/
theorem C10_empty_cmd (cmd : String) (h : pyStripNL cmd = "") (stream : List String) :
    runLoop (pyStripNL cmd) stream [] 0 =
      Except.ok ⟨[], [], 0, Term.eof, stream.length⟩ ∧
    execute ⟨true, true⟩ cmd stream =
      ⟨["\n", "echo end of stdOUT buffer. finished with exit status $?\n"],
       Except.ok ⟨StdinFile.handle, [], []⟩⟩ := by
  have key : ∀ (st : List String) (n : Nat),
      runLoop "" st [] n = Except.ok ⟨[], [], 0, Term.eof, n + st.length⟩ := by
    intro st
    induction st with
    | nil =>
      intro n
      simp [runLoop]
    | cons line rest ih =>
      intro n
      have hpre : (strStartsWith line "" || strStartsWith line echoCmdStr) = true := by
        have hd : ("" : String).data = [] := rfl
        unfold strStartsWith
        rw [hd]
        simp [isPrefixOfL]
      simp only [runLoop]
      rw [if_pos hpre, ih (n + 1), List.length_cons]
      have harith : n + 1 + rest.length = n + (rest.length + 1) := by omega
      rw [harith]
  have hlo : runLoop (pyStripNL cmd) stream [] 0 =
      Except.ok ⟨[], [], 0, Term.eof, stream.length⟩ := by
    rw [h, key stream 0]
    simp
  refine ⟨hlo, ?_⟩
  rw [execute_ok cmd stream ⟨[], [], 0, Term.eof, stream.length⟩ hlo, h]
  rfl

/-- C10, witness: a command of bare newlines, a stream that even contains a
well-formed sentinel line, through `C10_empty_cmd`: the sentinel is ignored
and everything comes back empty. -/
theorem C10_witness :
    runLoop (pyStripNL "\n\n")
        ["a\n", "end of stdOUT buffer. finished with exit status 1\n"] [] 0 =
      Except.ok ⟨[], [], 0, Term.eof, 2⟩ ∧
    execute ⟨true, true⟩ "\n\n"
        ["a\n", "end of stdOUT buffer. finished with exit status 1\n"] =
      ⟨["\n", "echo end of stdOUT buffer. finished with exit status $?\n"],
       Except.ok ⟨StdinFile.handle, [], []⟩⟩ :=
  C10_empty_cmd "\n\n" rfl ["a\n", "end of stdOUT buffer. finished with exit status 1\n"]

end ShellHandler
